import Mathlib

/-!
Shallow embedding of the answer-selection engine of the Neuroformic
repository (`src/core/nlp.py`, class `QuestionAnalyzer`), together with
proofs of the specification's claims about it.

Modelling conventions:
* A spaCy token carries a surface text, a lemma, a POS tag and a stop flag;
  the loaded spaCy pipeline is an oracle `String → List Token` carried in
  the analyzer state.
* The optional transformer sentiment classifier is an oracle
  `String → Option String`; `none` models the call raising an exception,
  `some label` a successful classification.
* Python floats are modelled as exact rationals `ℚ`; every score the code
  builds is a short sum of decimal constants, so order comparisons and the
  final clamp behave identically.
* Python's `max` on an empty list raises `ValueError`; fallible calls are
  modelled with `Except`.
-/

set_option autoImplicit false

namespace Neuroformic

/-- Result of tokenizing with spaCy, as consumed by the analyzer: surface
text, lemma, part-of-speech tag and stop-word flag. -/
structure Token where
  text : String
  lemma_ : String
  pos_ : String
  is_stop : Bool

/-- Process-wide analyzer state: the spaCy pipeline oracle, the
`use_transformers` flag set at initialization, and the external transformer
sentiment classifier oracle (`none` models the call raising). -/
structure AnalyzerState where
  nlp : String → List Token
  use_transformers : Bool
  transformer_sentiment : String → Option String

/-- Tests whether the char list `p` is an initial segment of `s`. -/
def charsStartWith : List Char → List Char → Bool
  | _, [] => true
  | [], _ :: _ => false
  | c :: cs, p :: ps => c == p && charsStartWith cs ps

/-- Tests whether `p` occurs as a contiguous run inside the second list;
building block for Python's substring test. -/
def charsContain (p : List Char) : List Char → Bool
  | [] => p.isEmpty
  | c :: cs => charsStartWith (c :: cs) p || charsContain p cs

/-- Python's substring test `p in s` on strings. -/
def strContains (s p : String) : Bool := charsContain p.toList s.toList

/-- Python's `str.lower()`, written structurally on the character list so
that concrete instances reduce inside the kernel. -/
def pyLower (s : String) : String := ⟨s.data.map Char.toLower⟩

/-- Helper for `pyWordCount`: counts maximal runs of non-whitespace
characters; the Bool records whether we are inside a run. -/
def wordCountAux : List Char → Bool → Nat
  | [], _ => 0
  | c :: cs, inWord =>
      if c.isWhitespace then wordCountAux cs false
      else (if inWord then 0 else 1) + wordCountAux cs true

/-- Number of words of `s` in the sense of Python's `len(s.split())`. -/
def pyWordCount (s : String) : Nat := wordCountAux s.toList false

/-- The fixed question-word list of `_determine_question_type`
(`src/core/nlp.py` line 128), in source order. -/
def question_words : List String :=
  ["what", "when", "where", "who", "why", "how", "which", "can", "do", "is", "are"]

/-- The if/elif cascade inside the loop body of `_determine_question_type`
(lines 136-151): maps a matched question word to a question type. -/
def questionWordResult (word : String) : String :=
  if word == "what" then "factual"
  else if word == "when" then "temporal"
  else if word == "where" then "spatial"
  else if word == "who" then "person"
  else if word == "why" then "reason"
  else if word == "how" then "process"
  else if word == "can" || word == "do" || word == "is" || word == "are" then "yes_no"
  else "selection"

/-- The `for word in question_words: if word in first_words: return ...` loop
of `_determine_question_type` (lines 134-151); `none` means the loop fell
through. -/
def questionWordLoop (first_words : List String) : List String → Option String
  | [] => none
  | word :: rest =>
      if first_words.contains word then some (questionWordResult word)
      else questionWordLoop first_words rest

/-- `_determine_question_type` (lines 117-158): `text` is `doc.text`, the raw
question; `tokens` the spaCy tokens of the question. -/
def determine_question_type (text : String) (tokens : List Token) : String :=
  let first_words := (tokens.take 3).map (fun t => pyLower t.text)
  match questionWordLoop first_words question_words with
  | some t => t
  | none =>
      if text.trim.endsWith "?" then "general_question" else "statement"

/-- The fixed positive word list of `_analyze_sentiment` (line 178). -/
def positive_words : List String :=
  ["good", "great", "excellent", "best", "positive", "like", "love", "prefer"]

/-- The fixed negative word list of `_analyze_sentiment` (line 179). -/
def negative_words : List String :=
  ["bad", "poor", "worst", "negative", "dislike", "hate", "avoid", "terrible"]

/-- The rule-based fallback of `_analyze_sentiment` (lines 177-191). -/
def rule_based_sentiment (text : String) : String :=
  let text_lower := pyLower text
  let positive_count := positive_words.countP (fun word => strContains text_lower word)
  let negative_count := negative_words.countP (fun word => strContains text_lower word)
  if positive_count > negative_count then "positive"
  else if negative_count > positive_count then "negative"
  else "neutral"

/-- `_analyze_sentiment` (lines 160-191): transformer path when enabled, with
fall-through to the rule-based path on exception or when disabled. -/
def analyze_sentiment (st : AnalyzerState) (text : String) : String :=
  if st.use_transformers then
    match st.transformer_sentiment text with
    | some label => pyLower label
    | none => rule_based_sentiment text
  else rule_based_sentiment text

/-- `_extract_keywords` (lines 193-216): content-word lemmas in order, then
first-occurrence deduplication. -/
def extract_keywords (tokens : List Token) : List String :=
  let keywords := tokens.foldl (fun acc token =>
    if (token.pos_ == "NOUN" || token.pos_ == "PROPN") && !token.is_stop then
      acc ++ [token.lemma_]
    else if (token.pos_ == "VERB" || token.pos_ == "ADJ") && !token.is_stop then
      acc ++ [token.lemma_]
    else acc) []
  keywords.foldl (fun acc kw => if acc.contains kw then acc else acc ++ [kw]) []

/-- `_determine_answer_strategy` (lines 218-249). The `sentiment` and
`keywords` parameters are received but never read, exactly as in the source. -/
def determine_answer_strategy (question_type : String) (sentiment : String)
    (keywords : List String) : String :=
  if question_type == "yes_no" then "prefer_yes"
  else if question_type == "selection" then "keyword_match"
  else if ["factual", "temporal", "spatial", "person"].contains question_type then
    "specific_info"
  else if question_type == "reason" then "explanation"
  else "balanced"

/-- `_determine_expected_answer_type` (lines 251-278). The `doc` parameter is
received but never read, exactly as in the source. -/
def determine_expected_answer_type (doc : List Token) (question_type : String) : String :=
  if question_type == "yes_no" then "boolean"
  else if question_type == "selection" then "option"
  else if question_type == "temporal" then "date_time"
  else if question_type == "spatial" then "location"
  else if question_type == "person" then "entity"
  else "text"

/-- The analysis dict built by `analyze_question` (lines 77-83). -/
structure Analysis where
  question_type : String
  sentiment : String
  keywords : List String
  answer_strategy : String
  expected_answer_type : String

/-- `analyze_question` (lines 54-86). -/
def analyze_question (st : AnalyzerState) (question_text : String) : Analysis :=
  let doc := st.nlp question_text
  let question_type := determine_question_type question_text doc
  let sentiment := analyze_sentiment st question_text
  let keywords := extract_keywords doc
  let answer_strategy := determine_answer_strategy question_type sentiment keywords
  { question_type := question_type
    sentiment := sentiment
    keywords := keywords
    answer_strategy := answer_strategy
    expected_answer_type := determine_expected_answer_type doc question_type }

/-- The option-keyword extraction of `_score_option` (line 298). -/
def option_content_keywords (option_doc : List Token) : List String :=
  (option_doc.filter (fun t =>
    (t.pos_ == "NOUN" || t.pos_ == "VERB" || t.pos_ == "ADJ" || t.pos_ == "PROPN")
      && !t.is_stop)).map (fun t => t.lemma_)

/-- The positive marker list of the prefer_yes branch (line 303). -/
def prefer_yes_positive : List String :=
  ["yes", "agree", "strongly agree", "definitely", "absolutely"]

/-- The negative marker list of the prefer_yes branch (line 305). -/
def prefer_yes_negative : List String :=
  ["no", "disagree", "strongly disagree", "definitely not"]

/-- `_score_option` (lines 280-328): base 0.5, strategy adjustment, sentiment
alignment, length preference, final clamp to [0, 1]. -/
def score_option (st : AnalyzerState) (option : String) (question : String)
    (analysis : Analysis) : ℚ :=
  let score : ℚ := 1/2
  let option_doc := st.nlp option
  let option_keywords := option_content_keywords option_doc
  let score :=
    if analysis.answer_strategy == "prefer_yes" then
      if prefer_yes_positive.any (fun word => strContains (pyLower option) word) then
        score + 3/10
      else if prefer_yes_negative.any (fun word => strContains (pyLower option) word) then
        score - 2/10
      else score
    else if analysis.answer_strategy == "keyword_match" then
      let numMatches := analysis.keywords.countP (fun kw => option_keywords.contains kw)
      if numMatches > 0 then
        score + 2/10 * ((numMatches : ℚ) / (analysis.keywords.length : ℚ))
      else score
    else score
  let option_sentiment := analyze_sentiment st option
  let score :=
    if option_sentiment == analysis.sentiment then score + 1/10
    else if (analysis.sentiment == "positive" && option_sentiment == "negative")
        || (analysis.sentiment == "negative" && option_sentiment == "positive") then
      score - 1/10
    else score
  let words := pyWordCount option
  let score := if 5 ≤ words && words ≤ 25 then score + 1/20 else score
  max 0 (min 1 score)

/-- Exceptions the ranking path can surface. `valueError` is Python's builtin
`ValueError`, raised by `max()` on an empty sequence. `invalidInputError` is
modelled from the spec: the spec's §7 error taxonomy names the empty-options
failure `InvalidInputError`, but no class of that name exists anywhere in the
source tree. -/
inductive PyError where
  | valueError
  | invalidInputError
deriving DecidableEq, Repr

/-- Python's `max` on a list of numbers; `none` models the `ValueError` on an
empty sequence. -/
def pyMax : List ℚ → Option ℚ
  | [] => none
  | x :: xs => some (xs.foldl max x)

/-- Python's `list.index(v)`: index of the first occurrence of `v`. -/
def pyIndex (v : ℚ) : List ℚ → Nat
  | [] => 0
  | x :: xs => if x == v then 0 else pyIndex v xs + 1

/-- `predict_best_answer` (lines 88-115): analyze the question, score each
option in order, then `best_index = scores.index(max(scores))` and
`confidence = scores[best_index]`. -/
def predict_best_answer (st : AnalyzerState) (question_text : String)
    (options : List String) : Except PyError (Nat × ℚ) :=
  let analysis := analyze_question st question_text
  let scores := options.map (fun option => score_option st option question_text analysis)
  match pyMax scores with
  | none => .error .valueError
  | some m =>
      let best_index := pyIndex m scores
      .ok (best_index, scores.getD best_index 0)

/-! Spec-side tables, written from the specification's words, to be compared
with the functions embedded from the source. -/

/-- The question-word table of spec §4.1, as the spec states it:
what→factual, when→temporal, where→spatial, who→person, why→reason,
how→process, which→selection, can/do/is/are→yes_no. -/
def questionTypeTableSpec (w : String) : String :=
  if w = "what" then "factual"
  else if w = "when" then "temporal"
  else if w = "where" then "spatial"
  else if w = "who" then "person"
  else if w = "why" then "reason"
  else if w = "how" then "process"
  else if w = "which" then "selection"
  else "yes_no"

/-- The strategy table of spec §4.4, as the spec states it, a function of the
question type alone. -/
def strategyTableSpec (question_type : String) : String :=
  if question_type = "yes_no" then "prefer_yes"
  else if question_type = "selection" then "keyword_match"
  else if question_type = "factual" ∨ question_type = "temporal"
      ∨ question_type = "spatial" ∨ question_type = "person" then "specific_info"
  else if question_type = "reason" then "explanation"
  else "balanced"

/-- The expected-answer-type table as claimed: yes_no→boolean,
selection→option, temporal→date_time, spatial→location, person→entity,
everything else→text; a function of the question type alone. -/
def expectedTypeTableSpec (question_type : String) : String :=
  if question_type = "yes_no" then "boolean"
  else if question_type = "selection" then "option"
  else if question_type = "temporal" then "date_time"
  else if question_type = "spatial" then "location"
  else if question_type = "person" then "entity"
  else "text"

/-- The sentiment-alignment adjustment of `_score_option` (lines 314-320),
isolated as a function for stating branch-contribution facts. -/
def sentiment_adjust (st : AnalyzerState) (option : String) (analysis : Analysis) : ℚ :=
  let option_sentiment := analyze_sentiment st option
  if option_sentiment == analysis.sentiment then 1/10
  else if (analysis.sentiment == "positive" && option_sentiment == "negative")
      || (analysis.sentiment == "negative" && option_sentiment == "positive") then
    -(1/10)
  else 0

/-- The length-preference adjustment of `_score_option` (lines 322-325),
isolated as a function for stating branch-contribution facts. -/
def length_adjust (option : String) : ℚ :=
  if 5 ≤ pyWordCount option && pyWordCount option ≤ 25 then 1/20 else 0

/-- Splits a character list at spaces, keeping the words in order; helper for
the concrete tokenizer of `whitespaceState`. -/
def spaceSplitAux (cur : List Char) : List Char → List String
  | [] => [⟨cur.reverse⟩]
  | c :: cs => if c == ' ' then ⟨cur.reverse⟩ :: spaceSplitAux [] cs
      else spaceSplitAux (c :: cur) cs

/-- Splits a string at spaces. -/
def spaceSplit (s : String) : List String := spaceSplitAux [] s.data

/-- A concrete analyzer state used to instantiate the theorems: a plain
whitespace tokenizer with trivial lemmas/tags, transformers disabled (so the
rule-based sentiment path runs). -/
def whitespaceState : AnalyzerState where
  nlp := fun s => (spaceSplit s).map
    (fun w => { text := w, lemma_ := w, pos_ := "X", is_stop := false })
  use_transformers := false
  transformer_sentiment := fun _ => none

/-- A concrete analysis record with the keyword_match strategy and an empty
keyword list, used to instantiate the division-guard theorem. -/
def kwAnalysis : Analysis where
  question_type := "selection"
  sentiment := "neutral"
  keywords := []
  answer_strategy := "keyword_match"
  expected_answer_type := "option"

/-! ### Helper lemmas -/

theorem clamp01_bounds (s : ℚ) : 0 ≤ max 0 (min 1 s) ∧ max 0 (min 1 s) ≤ 1 :=
  ⟨le_max_left 0 _, max_le (by norm_num) (min_le_left 1 s)⟩

theorem le_foldl_max (xs : List ℚ) (x : ℚ) : x ≤ xs.foldl max x := by
  induction xs generalizing x with
  | nil => exact le_refl x
  | cons y ys ih => exact le_trans (le_max_left x y) (ih (max x y))

theorem mem_le_foldl_max (xs : List ℚ) (a : ℚ) (h : a ∈ xs) (x : ℚ) :
    a ≤ xs.foldl max x := by
  induction xs generalizing x with
  | nil => cases h
  | cons y ys ih =>
    rcases List.mem_cons.mp h with rfl | h'
    · exact le_trans (le_max_right x a) (le_foldl_max ys (max x a))
    · exact ih h' (max x y)

theorem foldl_max_mem (xs : List ℚ) (x : ℚ) :
    xs.foldl max x = x ∨ xs.foldl max x ∈ xs := by
  induction xs generalizing x with
  | nil => left; rfl
  | cons y ys ih =>
    have hstep : (y :: ys).foldl max x = ys.foldl max (max x y) := rfl
    rw [hstep]
    rcases ih (max x y) with h | h
    · rw [h]
      rcases max_choice x y with hm | hm
      · left; exact hm
      · right; rw [hm]; exact List.mem_cons_self y ys
    · right; exact List.mem_cons_of_mem y h

theorem pyIndex_lt_length (v : ℚ) (xs : List ℚ) (h : v ∈ xs) :
    pyIndex v xs < xs.length := by
  induction xs with
  | nil => cases h
  | cons x rest ih =>
    by_cases hx : x == v
    · simp [pyIndex, hx]
    · have h' : v ∈ rest := by
        rcases List.mem_cons.mp h with rfl | h'
        · exact absurd (beq_self_eq_true v) (by simpa using hx)
        · exact h'
      simp only [pyIndex, hx, if_false, List.length_cons, Bool.false_eq_true]
      exact Nat.succ_lt_succ (ih h')

theorem pyIndex_getD (v : ℚ) (xs : List ℚ) (h : v ∈ xs) :
    xs.getD (pyIndex v xs) 0 = v := by
  induction xs with
  | nil => cases h
  | cons x rest ih =>
    by_cases hx : x == v
    · simp only [pyIndex, hx, if_true, List.getD_cons_zero]
      exact beq_iff_eq.mp hx
    · have h' : v ∈ rest := by
        rcases List.mem_cons.mp h with rfl | h'
        · exact absurd (beq_self_eq_true v) (by simpa using hx)
        · exact h'
      simp only [pyIndex, hx, if_false, List.getD_cons_succ, Bool.false_eq_true]
      exact ih h'

theorem pyIndex_first (v : ℚ) (xs : List ℚ) :
    ∀ j < pyIndex v xs, xs.getD j 0 ≠ v := by
  induction xs with
  | nil => intro j hj; simp [pyIndex] at hj
  | cons x rest ih =>
    intro j hj
    by_cases hx : x == v
    · simp [pyIndex, hx] at hj
    · rw [pyIndex, if_neg (by simpa using hx)] at hj
      cases j with
      | zero =>
        simpa using fun he => hx (by simp [he])
      | succ k =>
        simpa using ih k (Nat.lt_of_succ_lt_succ hj)

/-- The arg-max structure of `scores.index(max(scores))` on a non-empty list:
the maximum exists, its first index is in range, reading the list there gives
back the maximum, every element is at most the maximum, and every earlier
position holds a strictly different value. -/
theorem argmax_spec (xs : List ℚ) (hx : xs ≠ []) :
    ∃ m, pyMax xs = some m ∧ pyIndex m xs < xs.length ∧
      xs.getD (pyIndex m xs) 0 = m ∧ m ∈ xs ∧ (∀ s ∈ xs, s ≤ m) ∧
      ∀ j < pyIndex m xs, xs.getD j 0 ≠ m := by
  rcases xs with _ | ⟨x, rest⟩
  · exact absurd rfl hx
  · have hmem : rest.foldl max x ∈ x :: rest := by
      rcases foldl_max_mem rest x with h1 | h1
      · rw [h1]; exact List.mem_cons_self x rest
      · exact List.mem_cons_of_mem x h1
    refine ⟨rest.foldl max x, rfl, pyIndex_lt_length _ _ hmem, pyIndex_getD _ _ hmem,
      hmem, ?_, pyIndex_first _ _⟩
    intro s hs
    rcases List.mem_cons.mp hs with rfl | hs'
    · exact le_foldl_max rest s
    · exact mem_le_foldl_max rest s hs' x

theorem questionWordLoop_eq_find (fw ws : List String) :
    questionWordLoop fw ws =
      (ws.find? (fun w => fw.contains w)).map questionWordResult := by
  induction ws with
  | nil => rfl
  | cons w rest ih =>
    by_cases hw : fw.contains w
    · rw [questionWordLoop, if_pos hw, List.find?_cons_of_pos _ hw, Option.map_some']
    · rw [questionWordLoop, if_neg hw, List.find?_cons_of_neg _ (by simpa using hw), ih]

/-- Under the prefer_yes strategy, when some positive marker matches the
lowered option text, `_score_option` takes the +0.3 branch (skipping the
negative check) and then applies only the sentiment and length adjustments
before clamping. -/
theorem score_option_prefer_yes_pos_branch (st : AnalyzerState) (opt q : String)
    (A : Analysis) (hs : A.answer_strategy = "prefer_yes")
    (hp : prefer_yes_positive.any (fun word => strContains (pyLower opt) word) = true) :
    score_option st opt q A =
      max 0 (min 1 (1/2 + 3/10 + sentiment_adjust st opt A + length_adjust opt)) := by
  unfold score_option sentiment_adjust length_adjust
  dsimp only
  rw [hs, hp]
  simp only [beq_self_eq_true, eq_self_iff_true, if_true, ite_true]
  split_ifs <;> (congr 1 <;> congr 1 <;> ring)

/-- Under the prefer_yes strategy, when no positive marker matches but a
negative marker does, `_score_option` takes the -0.2 branch and then applies
only the sentiment and length adjustments before clamping. -/
theorem score_option_prefer_yes_neg_branch (st : AnalyzerState) (opt q : String)
    (A : Analysis) (hs : A.answer_strategy = "prefer_yes")
    (hp : prefer_yes_positive.any (fun word => strContains (pyLower opt) word) = false)
    (hn : prefer_yes_negative.any (fun word => strContains (pyLower opt) word) = true) :
    score_option st opt q A =
      max 0 (min 1 (1/2 - 2/10 + sentiment_adjust st opt A + length_adjust opt)) := by
  unfold score_option sentiment_adjust length_adjust
  dsimp only
  rw [hs, hp, hn]
  simp only [beq_self_eq_true, eq_self_iff_true, if_true, ite_true, Bool.false_eq_true,
    if_false, ite_false]
  split_ifs <;> (congr 1 <;> congr 1 <;> ring)

/-! ### Claims -/

/-- C1: for every state, question and non-empty options list, the ranker
returns a pair `(best_index, confidence)` with `best_index` in range,
`confidence` equal to the maximum of the per-option scores in input order,
and `best_index` the first index attaining that maximum (stable argmax). -/
theorem predict_best_answer_valid_stable_argmax (st : AnalyzerState) (q : String)
    (options : List String) (h : options ≠ []) :
    ∃ i c, predict_best_answer st q options = .ok (i, c) ∧ i < options.length ∧
      (options.map (fun z => score_option st z q (analyze_question st q))).getD i 0 = c ∧
      c ∈ options.map (fun z => score_option st z q (analyze_question st q)) ∧
      (∀ s ∈ options.map (fun z => score_option st z q (analyze_question st q)), s ≤ c) ∧
      ∀ j < i, (options.map (fun z => score_option st z q (analyze_question st q))).getD j 0 ≠ c := by
  obtain ⟨m, hpm, hlt, hgd, hmem, hle, hfirst⟩ :=
    argmax_spec (options.map (fun z => score_option st z q (analyze_question st q)))
      (by simpa using h)
  refine ⟨pyIndex m (options.map (fun z => score_option st z q (analyze_question st q))), m,
    ?_, ?_, hgd, hmem, hle, hfirst⟩
  · have hres : predict_best_answer st q options =
        match pyMax (options.map (fun z => score_option st z q (analyze_question st q))) with
        | none => .error .valueError
        | some m =>
            .ok (pyIndex m (options.map (fun z => score_option st z q (analyze_question st q))),
              (options.map (fun z => score_option st z q (analyze_question st q))).getD
                (pyIndex m (options.map (fun z => score_option st z q (analyze_question st q)))) 0) :=
      rfl
    rw [hres, hpm]
    dsimp only
    rw [hgd]
  · simpa [List.length_map] using hlt

/-- C1 witness: the stable-argmax result instantiated at a concrete state,
question and two-option list. -/
theorem predict_best_answer_valid_stable_argmax_witness :
    ∃ i c, predict_best_answer whitespaceState "Do you agree?" ["Yes", "No"] = .ok (i, c) ∧
      i < (["Yes", "No"] : List String).length ∧
      ((["Yes", "No"] : List String).map (fun z => score_option whitespaceState z "Do you agree?"
        (analyze_question whitespaceState "Do you agree?"))).getD i 0 = c ∧
      c ∈ (["Yes", "No"] : List String).map (fun z => score_option whitespaceState z "Do you agree?"
        (analyze_question whitespaceState "Do you agree?")) ∧
      (∀ s ∈ (["Yes", "No"] : List String).map (fun z => score_option whitespaceState z "Do you agree?"
        (analyze_question whitespaceState "Do you agree?")), s ≤ c) ∧
      ∀ j < i, ((["Yes", "No"] : List String).map (fun z => score_option whitespaceState z "Do you agree?"
        (analyze_question whitespaceState "Do you agree?"))).getD j 0 ≠ c :=
  predict_best_answer_valid_stable_argmax whitespaceState "Do you agree?" ["Yes", "No"]
    (by decide)

/-- C4: the question classifier is total and equals the fixed algorithm: scan
the fixed question-word list in table order for a word among the lowered
first three tokens; on a hit return the table's type, otherwise
general_question when the stripped text ends in a question mark and
statement when it does not. -/
theorem question_type_table (text : String) (tokens : List Token) :
    determine_question_type text tokens =
      match question_words.find?
          (fun w => ((tokens.take 3).map (fun t => pyLower t.text)).contains w) with
      | some w => questionTypeTableSpec w
      | none => if text.trim.endsWith "?" then "general_question" else "statement" := by
  unfold determine_question_type
  dsimp only
  rw [questionWordLoop_eq_find]
  cases hf : question_words.find?
      (fun w => ((tokens.take 3).map (fun t => pyLower t.text)).contains w) with
  | none => rfl
  | some w =>
    have hw : w ∈ question_words := List.mem_of_find?_eq_some hf
    have hres : questionWordResult w = questionTypeTableSpec w := by
      fin_cases hw <;> rfl
    simp [hres]

/-- C8: in the keyword_match branch the division is guarded: a positive match
count forces a non-empty analysis keyword list (so the division by the list
length is unreachable on the empty list), and with an empty keyword list the
branch contributes exactly 0 to the score (the score equals the one computed
under the neutral default strategy). -/
theorem keyword_match_division_guard (st : AnalyzerState) (opt q : String) (A : Analysis)
    (hs : A.answer_strategy = "keyword_match") :
    (A.keywords.countP (fun kw => (option_content_keywords (st.nlp opt)).contains kw) > 0 →
      A.keywords ≠ []) ∧
    (A.keywords = [] →
      score_option st opt q A =
        score_option st opt q { A with answer_strategy := "balanced" }) := by
  constructor
  · intro hpos hnil
    rw [hnil] at hpos
    simp at hpos
  · intro hnil
    simp [score_option, hs, hnil]

/-- C8 witness: the division guard instantiated at a concrete state, option,
question and keyword_match analysis with an empty keyword list, with the
empty-keywords implication discharged. -/
theorem keyword_match_division_guard_witness :
    kwAnalysis.keywords = [] ∧
    score_option whitespaceState "Option A" "Which option?" kwAnalysis =
      score_option whitespaceState "Option A" "Which option?"
        { kwAnalysis with answer_strategy := "balanced" } :=
  ⟨rfl, (keyword_match_division_guard whitespaceState "Option A" "Which option?"
    kwAnalysis rfl).2 rfl⟩

/-- C3 counterexample: with empty options the ranker fails, but with Python's
builtin `ValueError` (raised by `max()` on an empty sequence), not with the
`InvalidInputError` the claim names — no such class exists in the source. -/
theorem empty_options_error_class_cex :
    predict_best_answer whitespaceState "Any question?" [] = .error .valueError ∧
    predict_best_answer whitespaceState "Any question?" [] ≠ .error .invalidInputError := by
  constructor
  · rfl
  · intro hc
    exact PyError.noConfusion (Except.error.inj hc)

/-- C3 (amended): for every analyzer state and question, the ranker applied to
an empty options list fails with `ValueError` (so it never returns an
`(index, confidence)` pair for empty options). -/
theorem predict_best_answer_empty_options_fails (st : AnalyzerState) (q : String) :
    predict_best_answer st q [] = .error .valueError := rfl

/-- C6: for every analyzer state, option text, question text and analysis
record, `_score_option` returns a value in the closed interval [0, 1]. -/
theorem score_option_in_unit_interval (st : AnalyzerState) (option question : String)
    (analysis : Analysis) :
    0 ≤ score_option st option question analysis ∧
      score_option st option question analysis ≤ 1 :=
  clamp01_bounds _

/-- C7: `_determine_answer_strategy` is a pure total lookup on the question
type alone, equal to the spec's table for every value of the sentiment and
keywords arguments it also receives. -/
theorem answer_strategy_pure_table (question_type sentiment : String)
    (keywords : List String) :
    determine_answer_strategy question_type sentiment keywords =
      strategyTableSpec question_type := by
  unfold determine_answer_strategy strategyTableSpec
  split_ifs <;> simp_all [List.contains_cons]

/-- C10: the expected answer type is a pure function of the question type
alone, equal to the claimed table (yes_no→boolean, selection→option,
temporal→date_time, spatial→location, person→entity, default text), both for
`_determine_expected_answer_type` itself (its `doc` argument is ignored) and
for the field `analyze_question` stores. -/
theorem expected_answer_type_pure_table :
    (∀ (doc : List Token) (question_type : String),
        determine_expected_answer_type doc question_type =
          expectedTypeTableSpec question_type) ∧
    (∀ (st : AnalyzerState) (q : String),
        (analyze_question st q).expected_answer_type =
          expectedTypeTableSpec (analyze_question st q).question_type) := by
  have h1 : ∀ (doc : List Token) (qt : String),
      determine_expected_answer_type doc qt = expectedTypeTableSpec qt := by
    intro doc qt
    unfold determine_expected_answer_type expectedTypeTableSpec
    split_ifs <;> simp_all
  exact ⟨h1, fun st q => h1 (st.nlp q) (determine_question_type q (st.nlp q))⟩

/-- C5: whenever the transformer classifier is disabled or raises, sentiment
analysis is the deterministic counting rule over the fixed word lists, and on
the three example texts (with the classifier disabled) it yields positive,
negative and neutral respectively. -/
theorem sentiment_fallback_rule :
    (∀ (st : AnalyzerState) (text : String),
        st.use_transformers = false ∨ st.transformer_sentiment text = none →
        analyze_sentiment st text =
          (if positive_words.countP (fun w => strContains (pyLower text) w) >
              negative_words.countP (fun w => strContains (pyLower text) w) then "positive"
           else if negative_words.countP (fun w => strContains (pyLower text) w) >
              positive_words.countP (fun w => strContains (pyLower text) w) then "negative"
           else "neutral")) ∧
    (∀ st : AnalyzerState, st.use_transformers = false →
        analyze_sentiment st "This is a great and excellent result" = "positive" ∧
        analyze_sentiment st "This is terrible and bad" = "negative" ∧
        analyze_sentiment st "The sky is present" = "neutral") := by
  have hror : ∀ (st : AnalyzerState) (text : String),
      st.use_transformers = false ∨ st.transformer_sentiment text = none →
      analyze_sentiment st text = rule_based_sentiment text := by
    intro st text h
    unfold analyze_sentiment
    rcases h with h | h
    · rw [h]; rfl
    · by_cases hu : st.use_transformers <;> simp [hu, h]
  constructor
  · intro st text h
    rw [hror st text h]
    rfl
  · intro st hu
    refine ⟨?_, ?_, ?_⟩ <;> rw [hror st _ (Or.inl hu)] <;> rfl

/-- C5 witness: the general fallback rule and the example evaluations applied
at the concrete whitespace-tokenizer state. -/
theorem sentiment_fallback_rule_witness :
    (whitespaceState.use_transformers = false ∨
        whitespaceState.transformer_sentiment "The sky is present" = none) ∧
    analyze_sentiment whitespaceState "The sky is present" =
      (if positive_words.countP (fun w => strContains (pyLower "The sky is present") w) >
          negative_words.countP (fun w => strContains (pyLower "The sky is present") w) then
        "positive"
       else if negative_words.countP (fun w => strContains (pyLower "The sky is present") w) >
          positive_words.countP (fun w => strContains (pyLower "The sky is present") w) then
        "negative"
       else "neutral") ∧
    analyze_sentiment whitespaceState "This is a great and excellent result" = "positive" :=
  ⟨Or.inl rfl,
    sentiment_fallback_rule.1 whitespaceState "The sky is present" (Or.inl rfl),
    (sentiment_fallback_rule.2 whitespaceState rfl).1⟩

/-- C2 counterexample: under prefer_yes the option "yes no" (for the question
"Do you like it?", whose analysis has strategy prefer_yes) matches both a
positive and a negative marker, yet scores 4/5 = 0.5 + 0.3: the source's
if/elif applies only the positive adjustment, not the claimed additive
0.5 + 0.3 - 0.2. -/
theorem prefer_yes_checks_not_additive_cex :
    (analyze_question whitespaceState "Do you like it?").answer_strategy = "prefer_yes" ∧
    prefer_yes_positive.any (fun w => strContains (pyLower "yes no") w) = true ∧
    prefer_yes_negative.any (fun w => strContains (pyLower "yes no") w) = true ∧
    score_option whitespaceState "yes no" "Do you like it?"
      (analyze_question whitespaceState "Do you like it?") = 4/5 ∧
    (4/5 : ℚ) ≠ 1/2 + 3/10 - 2/10 := by
  refine ⟨rfl, rfl, rfl, ?_, by norm_num⟩
  rw [score_option_prefer_yes_pos_branch whitespaceState "yes no" "Do you like it?"
    (analyze_question whitespaceState "Do you like it?") rfl rfl]
  have hadj : sentiment_adjust whitespaceState "yes no"
      (analyze_question whitespaceState "Do you like it?") = 0 := rfl
  have hlen : length_adjust "yes no" = 0 := rfl
  rw [hadj, hlen]
  norm_num [max_def, min_def]

/-- C2 (amended): the positive and negative checks of the prefer_yes branch
are mutually exclusive (if/elif): whenever a positive marker matches — in
particular when both a positive and a negative marker match — the branch
contributes exactly +0.3 and the negative check is skipped, so the net effect
on a doubly-matching option is +0.3, not the additive +0.1. -/
theorem prefer_yes_positive_shadows_negative (st : AnalyzerState) (opt q : String)
    (A : Analysis) (hs : A.answer_strategy = "prefer_yes")
    (hp : prefer_yes_positive.any (fun word => strContains (pyLower opt) word) = true) :
    score_option st opt q A =
      max 0 (min 1 (1/2 + 3/10 + sentiment_adjust st opt A + length_adjust opt)) :=
  score_option_prefer_yes_pos_branch st opt q A hs hp

/-- C2 witness: the amended branch-contribution fact instantiated at the
doubly-matching option "definitely not". -/
theorem prefer_yes_positive_shadows_negative_witness :
    score_option whitespaceState "definitely not" "Do you like it?"
      (analyze_question whitespaceState "Do you like it?") =
      max 0 (min 1 (1/2 + 3/10 +
        sentiment_adjust whitespaceState "definitely not"
          (analyze_question whitespaceState "Do you like it?") +
        length_adjust "definitely not")) :=
  prefer_yes_positive_shadows_negative whitespaceState "definitely not" "Do you like it?"
    (analyze_question whitespaceState "Do you like it?") rfl rfl

/-- C9: for the question "Do you agree with this policy?" with options
Strongly agree / Strongly disagree / No opinion, with the transformer
disabled and a tokenizer whose lowered first three tokens are do/you/agree,
the analysis is yes_no with strategy prefer_yes and the ranker returns index
0 with confidence 9/10, strictly above the 2/5 score of "No opinion". -/
theorem end_to_end_agree_policy (st : AnalyzerState)
    (hT : st.use_transformers = false)
    (hTok : ((st.nlp "Do you agree with this policy?").take 3).map (fun t => pyLower t.text)
      = ["do", "you", "agree"]) :
    (analyze_question st "Do you agree with this policy?").question_type = "yes_no" ∧
    (analyze_question st "Do you agree with this policy?").answer_strategy = "prefer_yes" ∧
    predict_best_answer st "Do you agree with this policy?"
      ["Strongly agree", "Strongly disagree", "No opinion"] = .ok (0, 9/10) ∧
    score_option st "No opinion" "Do you agree with this policy?"
      (analyze_question st "Do you agree with this policy?") = 2/5 ∧
    (2/5 : ℚ) < 9/10 := by
  have hqt : determine_question_type "Do you agree with this policy?"
      (st.nlp "Do you agree with this policy?") = "yes_no" := by
    unfold determine_question_type
    dsimp only
    rw [hTok]
    rfl
  have hsent : analyze_sentiment st "Do you agree with this policy?" = "neutral" := by
    unfold analyze_sentiment
    rw [hT]
    rfl
  have hA : analyze_question st "Do you agree with this policy?" =
      { question_type := "yes_no", sentiment := "neutral",
        keywords := extract_keywords (st.nlp "Do you agree with this policy?"),
        answer_strategy := "prefer_yes", expected_answer_type := "boolean" } := by
    unfold analyze_question
    dsimp only
    rw [hqt, hsent]
    rfl
  have hstrat : (analyze_question st "Do you agree with this policy?").answer_strategy
      = "prefer_yes" := by rw [hA]
  have hos : ∀ opt : String, analyze_sentiment st opt = rule_based_sentiment opt := by
    intro opt
    unfold analyze_sentiment
    rw [hT]
    rfl
  have hadj : ∀ opt : String, rule_based_sentiment opt = "neutral" →
      sentiment_adjust st opt (analyze_question st "Do you agree with this policy?") = 0 + 1/10 := by
    intro opt hopt
    unfold sentiment_adjust
    rw [hos opt, hopt, hA]
    norm_num
  have hs1 : score_option st "Strongly agree" "Do you agree with this policy?"
      (analyze_question st "Do you agree with this policy?") = 9/10 := by
    rw [score_option_prefer_yes_pos_branch st "Strongly agree" _ _ hstrat rfl,
      hadj "Strongly agree" rfl]
    have hlen : length_adjust "Strongly agree" = 0 := rfl
    rw [hlen]
    norm_num [max_def, min_def]
  have hs2 : score_option st "Strongly disagree" "Do you agree with this policy?"
      (analyze_question st "Do you agree with this policy?") = 9/10 := by
    rw [score_option_prefer_yes_pos_branch st "Strongly disagree" _ _ hstrat rfl,
      hadj "Strongly disagree" rfl]
    have hlen : length_adjust "Strongly disagree" = 0 := rfl
    rw [hlen]
    norm_num [max_def, min_def]
  have hs3 : score_option st "No opinion" "Do you agree with this policy?"
      (analyze_question st "Do you agree with this policy?") = 2/5 := by
    rw [score_option_prefer_yes_neg_branch st "No opinion" _ _ hstrat rfl rfl,
      hadj "No opinion" rfl]
    have hlen : length_adjust "No opinion" = 0 := rfl
    rw [hlen]
    norm_num [max_def, min_def]
  have hmax : pyMax [(9 : ℚ)/10, 9/10, 2/5] = some (9/10) := by
    unfold pyMax
    simp only [List.foldl, Option.some.injEq]
    norm_num [max_def]
  have hidx : pyIndex ((9 : ℚ)/10) [(9 : ℚ)/10, 9/10, 2/5] = 0 := by
    simp [pyIndex]
  have hpred : predict_best_answer st "Do you agree with this policy?"
      ["Strongly agree", "Strongly disagree", "No opinion"] = .ok (0, 9/10) := by
    unfold predict_best_answer
    dsimp only
    simp only [List.map_cons, List.map_nil]
    rw [hs1, hs2, hs3, hmax]
    dsimp only
    rw [hidx]
    rfl
  exact ⟨by rw [hA], hstrat, hpred, hs3, by norm_num⟩

/-- C9 witness: the end-to-end scenario instantiated at the concrete
whitespace-tokenizer state. -/
theorem end_to_end_agree_policy_witness :
    (analyze_question whitespaceState "Do you agree with this policy?").question_type
      = "yes_no" ∧
    (analyze_question whitespaceState "Do you agree with this policy?").answer_strategy
      = "prefer_yes" ∧
    predict_best_answer whitespaceState "Do you agree with this policy?"
      ["Strongly agree", "Strongly disagree", "No opinion"] = .ok (0, 9/10) ∧
    score_option whitespaceState "No opinion" "Do you agree with this policy?"
      (analyze_question whitespaceState "Do you agree with this policy?") = 2/5 ∧
    (2/5 : ℚ) < 9/10 :=
  end_to_end_agree_policy whitespaceState rfl (by decide)

end Neuroformic
